import Mathlib

/-!
Verification development for the `trading-bot-webhook` repository.

Shallow embedding of the parts of the code the claims are about:

* `app/fyers_api.py` — `_retry_api_call`, `_validate_order_params`
* `app/idempotency.py` — `IdempotencyStore`
* `app/token_manager.py` — `TokenManager` (`_is_token_expired`, `_save_tokens`,
  `refresh_token`, `generate_token`, `get_access_token`, `get_fyers_client`,
  `_initialize_fyers_client`)
* `app/routes.py` — the `/webhook` handler

Modelling conventions:

* Timestamps (`time.time()`, `datetime.now()`) are `Nat` epoch seconds passed
  explicitly as a `now` argument; ISO-8601 strings stored in the token record
  are modelled as the corresponding epoch value.
* Python dict fields that may be absent are `Option`; Python truthiness of an
  optional string / int / rational is made explicit by the `…Truthy` helpers
  (absent, `""`, and `0` are falsy).
* Prices and stop-loss/take-profit values are `ℚ` (the claims do not depend on
  binary floating-point artefacts); `round` is Python's banker's rounding.
* A Python function that can raise is embedded with an `Except String` result
  (the string is the message); external collaborators (HTTP provider, broker
  SDK, GCS, environment variables) are supplied as explicit environment
  records, one field per observable outcome of a collaborator call.
-/

deriving instance DecidableEq for Except

namespace TradingBot

/-- Python truthiness of an optional string: `None` and `""` are falsy. -/
def strTruthy : Option String → Bool
  | none => false
  | some s => !s.isEmpty

/-- Python truthiness of an optional integer: `None` and `0` are falsy. -/
def intTruthy : Option Int → Bool
  | none => false
  | some n => n != 0

/-- Python truthiness of an optional rational: `None` and `0` are falsy. -/
def ratTruthy : Option ℚ → Bool
  | none => false
  | some x => x != 0

/-- Python's `str.upper()` (on the ASCII alphabet the handler deals with). -/
def pyUpper (s : String) : String :=
  ⟨s.data.map Char.toUpper⟩

/-- Python's `str.strip()`: drop leading and trailing whitespace. -/
def pyStrip (s : String) : String :=
  ⟨((s.data.dropWhile Char.isWhitespace).reverse.dropWhile
      Char.isWhitespace).reverse⟩

/-- Python's `round` on an exact rational: round half to even. -/
def pyRound (x : ℚ) : ℤ :=
  let f := ⌊x⌋
  let frac := x - f
  if frac < 1/2 then f
  else if frac > 1/2 then f + 1
  else if f % 2 = 0 then f else f + 1

/-! ## `_retry_api_call` (app/fyers_api.py lines 28–73)

The call to be retried is modelled as a function from the attempt number
(1-based, as in the Python `for attempt in range(1, retries + 1)`) to an
`Except String α`: `.error` is a raised exception, `.ok` is a returned value —
whatever that value is, including an HTTP-style response object with a non-2xx
code. The trace records the number of invocations and the sleeps performed. -/

/-- Result of running `_retry_api_call`: final outcome (`none` only when the
`range` loop body never runs, i.e. `retries = 0`, where Python falls off the
end of the function and returns `None`), number of invocations of the call,
and the list of back-off sleeps in seconds. -/
structure RetryTrace (α : Type) where
  result : Option (Except String α)
  calls  : ℕ
  sleeps : List ℚ
  deriving Repr

/-- Loop of `_retry_api_call`, at attempt number `attempt` with `remaining`
loop iterations left (`remaining = retries + 1 - attempt`, so the test
`attempt < retries` of the Python code is `remaining ≠ 1`). `remaining = 0`
is the loop falling off the end (only when `retries = 0`). -/
def retryAux (f : ℕ → Except String α) (delay backoff : ℚ) :
    (remaining attempt : ℕ) → RetryTrace α
  | 0, _ => ⟨none, 0, []⟩
  | remaining + 1, attempt =>
    match f attempt with
    | .ok v => ⟨some (.ok v), 1, []⟩
    | .error e =>
      if remaining = 0 then ⟨some (.error e), 1, []⟩
      else
        let waitTime := delay * backoff ^ (attempt - 1)
        let rest := retryAux f delay backoff remaining (attempt + 1)
        ⟨rest.result, rest.calls + 1, waitTime :: rest.sleeps⟩

/-- `_retry_api_call(func, retries=retries, delay=delay, backoff=backoff)`:
the loop `for attempt in range(1, retries + 1)`. -/
def retryApiCall (f : ℕ → Except String α) (retries : ℕ) (delay backoff : ℚ) :
    RetryTrace α :=
  retryAux f delay backoff retries 1

/-- An HTTP-style response as returned (not raised) by a call: status code and
message. A non-2xx `code` is still a *returned* value for `_retry_api_call`. -/
structure HttpResp where
  code : ℕ
  msg  : String
  deriving Repr, DecidableEq

/-! ## `IdempotencyStore` (app/idempotency.py lines 38–74)

`self._data` is a finite map `key ↦ (response_dict, status_code, expires_at)`,
modelled as an association list; `time.time()` is the explicit `now : ℕ`
argument of each operation. The response dict stored for the webhook is
opaque here (`ρ`). -/

/-- One stored entry: `(response_dict, status_code, expires_at)`. -/
structure IdemEntry (ρ : Type) where
  response  : ρ
  status    : ℕ
  expiresAt : ℕ
  deriving Repr, DecidableEq

/-- `IdempotencyStore`: the TTL fixed at construction and the entry map. -/
structure IdemStore (ρ : Type) where
  ttl  : ℕ
  data : List (String × IdemEntry ρ)
  deriving Repr, DecidableEq

namespace IdemStore

/-- `_prune_locked`: drop every entry with `expires_at < now`. -/
def prune (s : IdemStore ρ) (now : ℕ) : IdemStore ρ :=
  { s with data := s.data.filter (fun kv => !(kv.2.expiresAt < now)) }

/-- `get(key)`: prune, then look the key up and evict/miss when
`now > expires_at`; returns `(response_dict, status_code)` on a hit together
with the store after pruning/eviction. -/
def get (s : IdemStore ρ) (now : ℕ) (key : String) :
    Option (ρ × ℕ) × IdemStore ρ :=
  let s1 := s.prune now
  match s1.data.find? (fun kv => kv.1 = key) with
  | none => (none, s1)
  | some kv =>
    if now > kv.2.expiresAt then
      (none, { s1 with data := s1.data.filter (fun e => e.1 ≠ key) })
    else (some (kv.2.response, kv.2.status), s1)

/-- `set(key, response_dict, status_code)`: a no-op when `ttl ≤ 0`; otherwise
prune and insert with `expires_at = now + ttl`. -/
def set (s : IdemStore ρ) (now : ℕ) (key : String) (response : ρ)
    (status : ℕ) : IdemStore ρ :=
  if s.ttl ≤ 0 then s
  else
    let s1 := s.prune now
    { s1 with data :=
        (key, ⟨response, status, now + s.ttl⟩) ::
          s1.data.filter (fun e => e.1 ≠ key) }

end IdemStore

/-! ## `_validate_order_params` (app/fyers_api.py lines 76–111)

`_get_default_qty(symbol)` reads the external symbol-master CSV; its result is
passed in as `defaultQty`. `float(sl)` on the values the webhook passes (int
from `round`, or `None`) cannot raise, so `sl`/`tp` are `Option ℚ`. -/

/-- `valid_product_types` (app/fyers_api.py line 20). -/
def validProductTypes : List String := ["INTRADAY", "CNC", "DELIVERY", "BO", "CO"]

/-- `_validate_order_params(symbol, qty, sl, tp, productType)`; returns the
normalised `(qty, sl, tp, productType)`. -/
def validateOrderParams (qty : Option Int) (sl tp : Option ℚ)
    (productType : String) (defaultQty : Int) : Int × ℚ × ℚ × String :=
  let q := if intTruthy qty then qty.getD defaultQty else defaultQty
  let s := match sl with
    | some x => if x ≠ 0 ∧ x > 0 then x else 10
    | none => 10
  let t := match tp with
    | some x => if x ≠ 0 ∧ x > 0 then x else 20
    | none => 20
  let p := if productType ∈ validProductTypes then productType else "BO"
  (q, s, t, p)

/-! ## `TokenManager` (app/token_manager.py)

The token record `self._tokens` is a dict with optional fields; `expires_at`
is stored as an ISO string, modelled as the epoch value it denotes, with a
`malformed` constructor for a present-but-unparsable string (parse failure →
expired in `_is_token_expired`). An absent or empty `expires_at` string is the
`none` case (both are falsy in `if not expires_at_str`).

Environment-variable reads (`FYERS_PIN`, `FYERS_AUTH_CODE`, `GCS_BUCKET_NAME`
…), the HTTP refresh call, the SDK `generate_token()` call, and the outcomes
of the local-file write and the GCS upload are supplied in `TMEnv`. The
`send_notification` fire-and-forget alerts and all logging are side channels
with no effect on state or result and are not modelled. The cached
`self._fyers` client is represented by the access token it was constructed
with (`FyersModel(token=token, …)`); constructing it is assumed not to raise
(the `except` in `_initialize_fyers_client` is for SDK construction errors). -/

/-- A stored `expires_at` value: a parseable ISO timestamp (as epoch seconds)
or a malformed string. -/
inductive ExpiryStamp
  | time (t : ℕ)
  | malformed
  deriving Repr, DecidableEq

/-- The token record `self._tokens` (absent dict keys are `none`). -/
structure Tokens where
  access_token  : Option String
  refresh_token : Option String
  issued_at     : Option ℕ
  expires_at    : Option ExpiryStamp
  deriving Repr, DecidableEq

/-- The provider/SDK token response dict (from the refresh HTTP endpoint or
`SessionModel.generate_token()`): status field `s`, and the optional
`access_token` / `refresh_token` keys. -/
structure ProviderResp where
  s             : String
  access_token  : Option String
  refresh_token : Option String
  deriving Repr, DecidableEq

/-- The `TokenManagerException` hierarchy (app/token_manager.py lines 31–48). -/
inductive TMErr
  | authCodeMissing (msg : String)
  | refreshTokenError (msg : String)
  | tokenManagerException (msg : String)
  deriving Repr, DecidableEq

/-- Mutable state of the `TokenManager` instance: the token record and the
cached Fyers client (`none` = `self._fyers is None`, `some t` = a client bound
to access token `t`). -/
structure TMState where
  tokens : Tokens
  fyers  : Option String
  deriving Repr, DecidableEq

/-- External collaborators and environment variables seen by `TokenManager`
operations. `refreshResp`/`generateResp` are `.error` for a raised transport /
SDK exception, `.ok` for a returned response dict. -/
structure TMEnv where
  pin          : Option String
  authCode     : String
  bucket       : Option String
  tokensFile   : Option String
  localWriteOk : Bool
  gcsUploadOk  : Bool
  refreshResp  : Except String ProviderResp
  generateResp : Except String ProviderResp
  deriving Repr, DecidableEq

namespace TokenManager

/-- `TokenManager.TOKEN_VALIDITY_SECONDS`. -/
def tokenValiditySeconds : ℕ := 86400

/-- `_is_token_expired(self)` at time `now`. -/
def isTokenExpired (tk : Tokens) (now : ℕ) : Bool :=
  if !strTruthy tk.access_token then true
  else
    match tk.expires_at with
    | none => false
    | some .malformed => true
    | some (.time t) => now ≥ t

/-- Effect record of `_save_tokens`: which of the two writes happened. The
function itself never raises — every failure path logs and returns. -/
structure SaveResult where
  localWritten  : Bool
  remoteWritten : Bool
  deriving Repr, DecidableEq

/-- `_save_tokens(self)` (app/token_manager.py lines 172–222): an early
`return` when `GCS_BUCKET_NAME` is falsy or `self.tokens_file` is falsy (no
write at all); otherwise the local atomic write, and only if that succeeded
the GCS upload, whose failure is logged and swallowed. JSON serialization of
the token dict is assumed not to raise. -/
def saveTokens (env : TMEnv) : SaveResult :=
  if !strTruthy env.bucket then ⟨false, false⟩
  else if !strTruthy env.tokensFile then ⟨false, false⟩
  else if !env.localWriteOk then ⟨false, false⟩
  else if !env.gcsUploadOk then ⟨true, false⟩
  else ⟨true, true⟩

/-- `_initialize_fyers_client(self)`: constructs a client bound to the current
access token when that token is truthy; otherwise logs a warning and leaves
`self._fyers` unchanged. -/
def initFyersClient (st : TMState) : TMState :=
  if strTruthy st.tokens.access_token then
    { st with fyers := st.tokens.access_token }
  else st

/-- Outcome of `refresh_token()` / `generate_token()`: the returned access
token or the raised error, the state afterwards, and the token record written
to the local file by `_save_tokens` (if that write happened). -/
structure TokenOpOutcome where
  result         : Except TMErr String
  state          : TMState
  persistedLocal : Option Tokens
  deriving Repr, DecidableEq

/-- `refresh_token(self)` (app/token_manager.py lines 301–367) at time `now`.
On the ok-response path the stored `refresh_token` is restored from its
previous value when the response omits the key (the response's own
`refresh_token`, if any, is never copied); `issued_at`/`expires_at` are set
from `now`; `_save_tokens` runs; the cached client is cleared and rebuilt.
Every failure — missing refresh token or PIN, transport error, non-ok
response — raises `RefreshTokenError` (the in-`try` raise is re-wrapped by
the `except Exception` clause, still as `RefreshTokenError`). -/
def refreshToken (st : TMState) (env : TMEnv) (now : ℕ) : TokenOpOutcome :=
  if !(strTruthy st.tokens.refresh_token && strTruthy env.pin) then
    ⟨.error (.refreshTokenError "Missing refresh_token or FYERS_PIN"), st, none⟩
  else
    match env.refreshResp with
    | .error e =>
      ⟨.error (.refreshTokenError ("Refresh token error: " ++ e)), st, none⟩
    | .ok resp =>
      if resp.s = "ok" ∧ resp.access_token.isSome then
        let current := st.tokens.refresh_token
        let tk1 := { st.tokens with access_token := resp.access_token }
        let tk2 :=
          if strTruthy current ∧ resp.refresh_token = none then
            { tk1 with refresh_token := current }
          else tk1
        let tk3 := { tk2 with
          issued_at := some now,
          expires_at := some (.time (now + tokenValiditySeconds)) }
        let save := saveTokens env
        let st1 := initFyersClient { st with tokens := tk3, fyers := none }
        ⟨.ok (resp.access_token.getD ""), st1,
          if save.localWritten then some tk3 else none⟩
      else
        ⟨.error (.refreshTokenError "Refresh token error: Token refresh failed"),
          st, none⟩

/-- `generate_token(self)` (app/token_manager.py lines 259–299) at time `now`.
A blank (stripped-empty) `FYERS_AUTH_CODE` raises `AuthCodeMissingError`; an
SDK exception raises `TokenManagerException`; on an ok response with an
`access_token` key the record is updated (the response's `refresh_token` is
copied when present), persisted, and the client rebuilt; any other response
raises `TokenManagerException`. -/
def generateToken (st : TMState) (env : TMEnv) (now : ℕ) : TokenOpOutcome :=
  if (pyStrip env.authCode).isEmpty then
    ⟨.error (.authCodeMissing "FYERS_AUTH_CODE not set in environment"), st, none⟩
  else
    match env.generateResp with
    | .error e =>
      ⟨.error (.tokenManagerException ("Token generation error: " ++ e)), st, none⟩
    | .ok resp =>
      if resp.s = "ok" ∧ resp.access_token.isSome then
        let tk1 := { st.tokens with access_token := resp.access_token }
        let tk2 :=
          match resp.refresh_token with
          | some r => { tk1 with refresh_token := some r }
          | none => tk1
        let tk3 := { tk2 with
          issued_at := some now,
          expires_at := some (.time (now + tokenValiditySeconds)) }
        let save := saveTokens env
        let st1 := initFyersClient { st with tokens := tk3, fyers := none }
        ⟨.ok (resp.access_token.getD ""), st1,
          if save.localWritten then some tk3 else none⟩
      else
        ⟨.error (.tokenManagerException "Token generation failed"), st, none⟩

/-- Outcome of `get_access_token()`: result, state afterwards, and how many
times `refresh_token()` / `generate_token()` were invoked by this call. -/
structure GATOutcome where
  result        : Except TMErr String
  state         : TMState
  refreshCalls  : ℕ
  generateCalls : ℕ
  deriving Repr, DecidableEq

/-- `get_access_token(self)` (app/token_manager.py lines 241–257) at time
`now`: return the stored token when not expired; otherwise call
`refresh_token()` and return its token if truthy; on `RefreshTokenError` (the
only error `refresh_token` raises) or a falsy refreshed token, fall through to
`generate_token()`, whose result or error propagates. -/
def getAccessToken (st : TMState) (env : TMEnv) (now : ℕ) : GATOutcome :=
  if !isTokenExpired st.tokens now then
    ⟨.ok (st.tokens.access_token.getD ""), st, 0, 0⟩
  else
    let r := refreshToken st env now
    match r.result with
    | .ok tok =>
      if !tok.isEmpty then ⟨.ok tok, r.state, 1, 0⟩
      else
        let g := generateToken r.state env now
        ⟨g.result, g.state, 1, 1⟩
    | .error (.refreshTokenError _) =>
      let g := generateToken r.state env now
      ⟨g.result, g.state, 1, 1⟩
    | .error e => ⟨.error e, r.state, 1, 0⟩

/-- Outcome of `get_fyers_client()`: the returned client (`.ok none` =
`self._fyers is None` returned as Python `None`), state afterwards, and the
number of `refresh_token()` / `generate_token()` invocations it made. -/
structure GFCOutcome where
  client        : Except TMErr (Option String)
  state         : TMState
  refreshCalls  : ℕ
  generateCalls : ℕ
  deriving Repr, DecidableEq

/-- `get_fyers_client(self)` (app/token_manager.py lines 392–402) at time
`now`: when the token is expired, attempt `refresh_token()` and swallow (log
only) a `RefreshTokenError`; any other error would propagate (unreachable,
since `refresh_token` only raises `RefreshTokenError`); then lazily construct
the client if none is cached, and return it. -/
def getFyersClient (st : TMState) (env : TMEnv) (now : ℕ) : GFCOutcome :=
  let step :=
    if isTokenExpired st.tokens now then
      let r := refreshToken st env now
      match r.result with
      | .ok _ => Except.ok (r.state, 1)
      | .error (.refreshTokenError _) => Except.ok (r.state, 1)
      | .error e => Except.error (e, r.state)
    else Except.ok (st, 0)
  match step with
  | .error (e, st1) => ⟨.error e, st1, 1, 0⟩
  | .ok (st1, rc) =>
    let st2 := if st1.fyers = none then initFyersClient st1 else st1
    ⟨.ok st2.fyers, st2, rc, 0⟩

end TokenManager

/-! ## The `/webhook` handler (app/routes.py lines 157–390)

The handler reads the JSON body fields with `data.get(...)`; collaborator
calls (`os.getenv("WEBHOOK_SECRET_TOKEN")`, `get_symbol_from_csv`,
`get_fyers`, `has_short_position`, `get_ltp`, `place_order`,
`_get_default_qty`) are supplied through `RoutesEnv`, one field per call
outcome. `get_ltp` and `place_order` catch their own exceptions internally
(app/fyers_api.py) and return a value, so `place_order` is total here;
`get_ltp`'s non-numeric returns (`None` or the `{"code": -1, ...}` dict) are
the `.ok none` case of `ltp`, since the handler only tests
`isinstance(ltp, (int, float))`. `0.15`/`0.25` are modelled as the exact
rationals `15/100`/`25/100`.

The handler makes **no** calls on the idempotency store in
`app/idempotency.py` (it neither imports nor mentions it); the
`idemOps` field of the result records the store reads/writes performed by the
handler and is therefore `0` on every path. -/

/-- The broker's order-response dict as seen by the handler (`.get("s")`,
`.get("message", 'Unknown error')`, plus an `id` payload the handler copies
into its own response body). -/
structure OrderResp where
  s       : Option String
  message : Option String
  id      : Option String
  deriving Repr, DecidableEq

/-- The distinct response bodies the handler can produce. -/
inductive WebhookBody
  | emptyJson
  | missingFields
  | unauthorized
  | cannotResolve
  | fyersInitFailed
  | noShortPosition
  | orderFailed (message : String) (details : OrderResp)
  | orderException (message : String)
  | orderPlaced (orderResponse : OrderResp)
  | unhandled (message : String)
  deriving Repr, DecidableEq

/-- The JSON body fields the handler reads (absent keys are `none`). -/
structure WebhookReq where
  token       : Option String
  symbol      : Option String
  strikeprice : Option Int
  optionType  : Option String
  expiry      : Option String
  action      : Option String
  qty         : Option Int
  sl          : Option ℚ
  tp          : Option ℚ
  productType : Option String
  deriving Repr, DecidableEq

/-- Collaborator outcomes for one handler invocation. `fyers1` is the
`get_fyers()` call in the price section (`.ok b` = returned a client of
truthiness `b`, `.error` = raised); `fyers2` is the `get_fyers()` call in the
order section; `hasShort` and `ltp` are the awaited results (`.error` = the
call raised into the handler's `try`). -/
structure RoutesEnv where
  secretToken    : Option String
  resolvedSymbol : Option String
  fyers1         : Except String Bool
  hasShort       : Except String Bool
  ltp            : Except String (Option ℚ)
  fyers2         : Except String Unit
  placeOrder     : OrderResp
  defaultQty     : Int
  deriving Repr, DecidableEq

/-- Observable outcome of one handler invocation: HTTP status and body, the
number of `has_short_position` / `get_ltp` / `place_order` calls made, the
number of idempotency-store operations made (always `0`: the handler contains
none), and the `sl`/`tp` values passed to `place_order` (when it was called). -/
structure WebhookResult where
  status      : ℕ
  body        : WebhookBody
  shortChecks : ℕ
  ltpCalls    : ℕ
  orderCalls  : ℕ
  idemOps     : ℕ
  slSent      : Option ℚ
  tpSent      : Option ℚ
  deriving Repr, DecidableEq

/-- The price section of the handler (the first `try`): `get_fyers`, the
BUY-cover check, and the LTP fetch. `.inl` is an early `return` from inside
the `try` (status, body, counts); `.inr (sl, tp, shortChecks, ltpCalls)` is
fall-through to order placement — an exception anywhere in the section is
caught by the `except`, which sets `ltp = sl = tp = None` and continues. -/
def webhookPriceSection (env : RoutesEnv) (actionUpper : String) :
    (ℕ × WebhookBody × ℕ × ℕ) ⊕ (Option ℚ × Option ℚ × ℕ × ℕ) :=
  let ltpStep := fun (sc : ℕ) =>
    match env.ltp with
    | .error _ => Sum.inr (none, none, sc, 1)
    | .ok none => Sum.inr (none, none, sc, 1)
    | .ok (some p) =>
      Sum.inr (some ((pyRound (p * 15 / 100) : ℤ) : ℚ),
               some ((pyRound (p * 25 / 100) : ℤ) : ℚ), sc, 1)
  match env.fyers1 with
  | .error _ => Sum.inr (none, none, 0, 0)
  | .ok fyersTruthy =>
    if !fyersTruthy then Sum.inl (500, .fyersInitFailed, 0, 0)
    else if actionUpper = "BUY" then
      match env.hasShort with
      | .error _ => Sum.inr (none, none, 1, 0)
      | .ok false => Sum.inl (400, .noShortPosition, 1, 0)
      | .ok true => ltpStep 1
    else ltpStep 0

/-- The `/webhook` handler: `none` input is a falsy parsed JSON body. -/
def webhook (env : RoutesEnv) (data : Option WebhookReq) : WebhookResult :=
  match data with
  | none => ⟨400, .emptyJson, 0, 0, 0, 0, none, none⟩
  | some d =>
    if !(strTruthy d.symbol && strTruthy d.action && intTruthy d.strikeprice &&
         strTruthy d.optionType && strTruthy d.expiry && strTruthy d.token) then
      ⟨400, .missingFields, 0, 0, 0, 0, none, none⟩
    else if d.token ≠ env.secretToken then
      ⟨401, .unauthorized, 0, 0, 0, 0, none, none⟩
    else if !strTruthy env.resolvedSymbol then
      ⟨403, .cannotResolve, 0, 0, 0, 0, none, none⟩
    else
      match webhookPriceSection env (pyUpper (d.action.getD "")) with
      | .inl (status, body, sc, lc) => ⟨status, body, sc, lc, 0, 0, none, none⟩
      | .inr (sl0, tp0, sc, lc) =>
        let v := validateOrderParams d.qty sl0 tp0 (d.productType.getD "BO")
          env.defaultQty
        match env.fyers2 with
        | .error e => ⟨500, .orderException e, sc, lc, 0, 0, none, none⟩
        | .ok _ =>
          let resp := env.placeOrder
          if resp.s ≠ some "ok" then
            ⟨500, .orderFailed (resp.message.getD "Unknown error") resp,
              sc, lc, 1, 0, some v.2.1, some v.2.2.1⟩
          else
            ⟨200, .orderPlaced resp, sc, lc, 1, 0, some v.2.1, some v.2.2.1⟩

/-! ## Theorems -/

/-- Helper: when the call raises on every attempt, the retry loop starting at
attempt `attempt ≥ 1` with `k + 1` iterations left makes `k + 1` invocations,
sleeps the exponential back-off sequence, and ends with the last attempt's
error. -/
theorem retryAux_all_error (f : ℕ → Except String α) (e : ℕ → String)
    (hf : ∀ n, f n = .error (e n)) (delay backoff : ℚ) :
    ∀ (k attempt : ℕ), 1 ≤ attempt →
      retryAux f delay backoff (k + 1) attempt =
        ⟨some (.error (e (attempt + k))), k + 1,
         (List.range k).map (fun i => delay * backoff ^ (attempt - 1 + i))⟩ := by
  intro k
  induction k with
  | zero =>
    intro attempt _
    simp [retryAux, hf]
  | succ k ih =>
    intro attempt h1
    have ihx := ih (attempt + 1) (by omega)
    rw [retryAux]
    simp only [hf, Nat.succ_ne_zero, if_false, ihx]
    congr 1
    · rw [show attempt + 1 + k = attempt + (k + 1) from by omega]
    · rw [List.range_succ_eq_map, List.map_cons, List.map_map]
      refine congrArg₂ _ (by norm_num) (List.map_congr_left ?_)
      intro i _
      have h2 : attempt + 1 - 1 + i = attempt + i := by omega
      have h3 : attempt - 1 + Nat.succ i = attempt + i := by omega
      simp [Function.comp, h2, h3]

/-- Helper: when the call raises on every attempt, `_retry_api_call` makes
exactly `retries` invocations, sleeps `delay * backoff ^ (attempt - 1)` after
each failed non-final attempt, and re-raises the last error. -/
theorem retryApiCall_all_error (f : ℕ → Except String α) (e : ℕ → String)
    (hf : ∀ n, f n = .error (e n)) (retries : ℕ) (hr : 1 ≤ retries)
    (delay backoff : ℚ) :
    retryApiCall f retries delay backoff =
      ⟨some (.error (e retries)), retries,
       (List.range (retries - 1)).map (fun i => delay * backoff ^ i)⟩ := by
  have h := retryAux_all_error f e hf delay backoff (retries - 1) 1 (by omega)
  have h1 : retries - 1 + 1 = retries := by omega
  have h2 : 1 + (retries - 1) = retries := by omega
  rw [h1, h2] at h
  rw [retryApiCall, h]
  simp

/-- Helper: a value returned on the first attempt — whatever it is, including
a non-2xx response object — is returned immediately: one invocation, no
sleeps, no retry. -/
theorem retryApiCall_returned_value (f : ℕ → Except String α) (v : α)
    (h1 : f 1 = .ok v) (retries : ℕ) (hr : 1 ≤ retries) (delay backoff : ℚ) :
    retryApiCall f retries delay backoff = ⟨some (.ok v), 1, []⟩ := by
  obtain ⟨r, rfl⟩ : ∃ r, retries = r + 1 := ⟨retries - 1, by omega⟩
  rw [retryApiCall, retryAux]
  simp [h1]

/-- C8: for every call that raises on every invocation, `_retry_api_call` with
`retries = 3`, `delay = 1`, `backoff = 2` invokes the call exactly 3 times,
sleeps 1 second after the first failure and 2 seconds after the second, and
then propagates the last error to the caller. -/
theorem C8_retry_three_attempts (f : ℕ → Except String α) (e : ℕ → String)
    (hf : ∀ n, f n = .error (e n)) :
    retryApiCall f 3 1 2 = ⟨some (.error (e 3)), 3, [1, 2]⟩ := by
  rw [retryApiCall_all_error f e hf 3 (by norm_num) 1 2]
  norm_num [List.range_succ]

/-- Witness for C8 at a concrete always-raising call. -/
theorem C8_retry_three_attempts_witness :
    retryApiCall (fun _ => (Except.error "boom" : Except String ℕ)) 3 1 2 =
      ⟨some (.error "boom"), 3, [1, 2]⟩ :=
  C8_retry_three_attempts _ (fun _ => "boom") (fun _ => rfl)

/-- C4, counterexample: a returned non-2xx response does not trigger a retry.
The wrapped call returns (does not raise) an HTTP 500 response on its first
attempt; `_retry_api_call` with `retries = 3`, `delay = 1`, `backoff = 2`
returns it after exactly one invocation, with no sleep and no retry — the
claim says this transient failure would be retried with back-off. -/
theorem C4_counterexample :
    retryApiCall (fun _ => (Except.ok (⟨500, "internal server error"⟩ : HttpResp)))
        3 1 2 =
      ⟨some (.ok ⟨500, "internal server error"⟩), 1, []⟩ ∧
    (retryApiCall (fun _ => (Except.ok (⟨500, "internal server error"⟩ : HttpResp)))
        3 1 2).calls ≠ 3 := by
  constructor
  · rfl
  · decide

/-- C4, amended: `_retry_api_call` retries only raised exceptions. A raised
transient failure is retried with sleeps `delay * backoff ^ (attempt - 1)` up
to `retries` total invocations, after which the last error is re-raised; a
value the call returns — including a non-2xx response object — is returned to
the caller immediately after one invocation, with no retry (the auth-failure
401 handling lives in the callers `get_ltp` / `has_short_position` /
`place_order`, outside `_retry_api_call`). -/
theorem C4_retry_amended (f : ℕ → Except String α) (retries : ℕ)
    (hr : 1 ≤ retries) (delay backoff : ℚ) :
    (∀ v, f 1 = .ok v →
      retryApiCall f retries delay backoff = ⟨some (.ok v), 1, []⟩) ∧
    (∀ e : ℕ → String, (∀ n, f n = .error (e n)) →
      retryApiCall f retries delay backoff =
        ⟨some (.error (e retries)), retries,
         (List.range (retries - 1)).map (fun i => delay * backoff ^ i)⟩) := by
  constructor
  · intro v h1
    exact retryApiCall_returned_value f v h1 retries hr delay backoff
  · intro e hf
    exact retryApiCall_all_error f e hf retries hr delay backoff

/-- Witness for C4's amended theorem at concrete calls: a returned 500
response passes through after one invocation, and an always-raising call is
retried 3 times with sleeps 1 and 2. -/
theorem C4_retry_amended_witness :
    retryApiCall (fun _ => (Except.ok (⟨500, "oops"⟩ : HttpResp))) 3 1 2 =
      ⟨some (.ok ⟨500, "oops"⟩), 1, []⟩ ∧
    retryApiCall (fun _ => (Except.error "down" : Except String HttpResp)) 3 1 2 =
      ⟨some (.error "down"), 3,
       (List.range 2).map (fun i => (1 : ℚ) * 2 ^ i)⟩ :=
  ⟨(C4_retry_amended _ 3 (by norm_num) 1 2).1 _ rfl,
   (C4_retry_amended _ 3 (by norm_num) 1 2).2 (fun _ => "down") (fun _ => rfl)⟩

/-- Helper: `_initialize_fyers_client` only touches the cached client, never
the token record. -/
theorem initFyersClient_tokens (st : TMState) :
    (TokenManager.initFyersClient st).tokens = st.tokens := by
  rw [TokenManager.initFyersClient]
  split <;> rfl

/-- Helper: `refresh_token()` either leaves the state untouched or returns a
token. -/
theorem refreshToken_state_or_ok (st : TMState) (env : TMEnv) (now : ℕ) :
    (TokenManager.refreshToken st env now).state = st ∨
    ∃ tok, (TokenManager.refreshToken st env now).result = .ok tok := by
  rw [TokenManager.refreshToken]
  split
  · left; rfl
  · split
    · left; rfl
    · split
      · right; exact ⟨_, rfl⟩
      · left; rfl

/-- Helper: when `refresh_token()` raises, the token record and cached client
are left untouched. -/
theorem refreshToken_error_state (st : TMState) (env : TMEnv) (now : ℕ)
    (e : TMErr) (h : (TokenManager.refreshToken st env now).result = .error e) :
    (TokenManager.refreshToken st env now).state = st := by
  rcases refreshToken_state_or_ok st env now with hs | ⟨tok, htok⟩
  · exact hs
  · rw [htok] at h
    exact absurd h (by simp)

/-- Helper: the success path of `refresh_token()` when the provider response
omits `refresh_token`: the new record keeps the old `refresh_token`, takes the
response's access token, stamps `issued_at`/`expires_at` from `now`, is handed
to `_save_tokens`, and the client cache is rebuilt from it. -/
theorem refreshToken_ok_eq (st : TMState) (env : TMEnv) (now : ℕ)
    (resp : ProviderResp)
    (hresp : env.refreshResp = .ok resp)
    (hs : resp.s = "ok") (hacc : resp.access_token.isSome = true)
    (homit : resp.refresh_token = none)
    (hrt : strTruthy st.tokens.refresh_token = true)
    (hpin : strTruthy env.pin = true) :
    TokenManager.refreshToken st env now =
      ⟨.ok (resp.access_token.getD ""),
       TokenManager.initFyersClient
         ⟨⟨resp.access_token, st.tokens.refresh_token, some now,
           some (.time (now + TokenManager.tokenValiditySeconds))⟩, none⟩,
       if (TokenManager.saveTokens env).localWritten then
         some ⟨resp.access_token, st.tokens.refresh_token, some now,
           some (.time (now + TokenManager.tokenValiditySeconds))⟩
       else none⟩ := by
  rw [TokenManager.refreshToken, hresp]
  simp [hrt, hpin, hs, hacc, homit]

/-- C2: for every stored token record with a present `refresh_token`, a
successful refresh whose provider response omits the `refresh_token` field
updates the access token and the `issued_at`/`expires_at` timestamps but
leaves the stored `refresh_token` unchanged, both in memory and in the record
handed to `_save_tokens` for persistence. -/
theorem C2_refresh_preserves_refresh_token (st : TMState) (env : TMEnv)
    (now : ℕ) (resp : ProviderResp)
    (hresp : env.refreshResp = .ok resp)
    (hs : resp.s = "ok") (hacc : resp.access_token.isSome = true)
    (homit : resp.refresh_token = none)
    (hrt : strTruthy st.tokens.refresh_token = true)
    (hpin : strTruthy env.pin = true) :
    (TokenManager.refreshToken st env now).result =
      .ok (resp.access_token.getD "") ∧
    (TokenManager.refreshToken st env now).state.tokens.refresh_token =
      st.tokens.refresh_token ∧
    (TokenManager.refreshToken st env now).state.tokens.access_token =
      resp.access_token ∧
    (TokenManager.refreshToken st env now).state.tokens.issued_at = some now ∧
    (TokenManager.refreshToken st env now).state.tokens.expires_at =
      some (.time (now + TokenManager.tokenValiditySeconds)) ∧
    (∀ tk, (TokenManager.refreshToken st env now).persistedLocal = some tk →
      tk.refresh_token = st.tokens.refresh_token) := by
  rw [refreshToken_ok_eq st env now resp hresp hs hacc homit hrt hpin]
  refine ⟨rfl, ?_, ?_, ?_, ?_, ?_⟩
  · rw [initFyersClient_tokens]
  · rw [initFyersClient_tokens]
  · rw [initFyersClient_tokens]
  · rw [initFyersClient_tokens]
  · intro tk htk
    simp only at htk
    split at htk
    · cases htk
      rfl
    · cases htk

/-- Witness for C2: concrete record with refresh token "r"; the provider
response omits `refresh_token`; after refresh the stored value is still "r",
in memory and in the persisted record. -/
theorem C2_refresh_preserves_refresh_token_witness :
    (TokenManager.refreshToken ⟨⟨some "old", some "r", none, none⟩, none⟩
        ⟨some "1234", "", some "bucket", some "tokens.json", true, true,
         .ok ⟨"ok", some "newacc", none⟩, .error "unused"⟩ 100).result =
      .ok ((some "newacc").getD "") ∧
    (TokenManager.refreshToken ⟨⟨some "old", some "r", none, none⟩, none⟩
        ⟨some "1234", "", some "bucket", some "tokens.json", true, true,
         .ok ⟨"ok", some "newacc", none⟩, .error "unused"⟩ 100).state.tokens.refresh_token =
      (⟨⟨some "old", some "r", none, none⟩, none⟩ : TMState).tokens.refresh_token ∧
    (TokenManager.refreshToken ⟨⟨some "old", some "r", none, none⟩, none⟩
        ⟨some "1234", "", some "bucket", some "tokens.json", true, true,
         .ok ⟨"ok", some "newacc", none⟩, .error "unused"⟩ 100).state.tokens.access_token =
      some "newacc" ∧
    (TokenManager.refreshToken ⟨⟨some "old", some "r", none, none⟩, none⟩
        ⟨some "1234", "", some "bucket", some "tokens.json", true, true,
         .ok ⟨"ok", some "newacc", none⟩, .error "unused"⟩ 100).state.tokens.issued_at =
      some 100 ∧
    (TokenManager.refreshToken ⟨⟨some "old", some "r", none, none⟩, none⟩
        ⟨some "1234", "", some "bucket", some "tokens.json", true, true,
         .ok ⟨"ok", some "newacc", none⟩, .error "unused"⟩ 100).state.tokens.expires_at =
      some (.time (100 + TokenManager.tokenValiditySeconds)) ∧
    (∀ tk, (TokenManager.refreshToken ⟨⟨some "old", some "r", none, none⟩, none⟩
        ⟨some "1234", "", some "bucket", some "tokens.json", true, true,
         .ok ⟨"ok", some "newacc", none⟩, .error "unused"⟩ 100).persistedLocal = some tk →
      tk.refresh_token =
        (⟨⟨some "old", some "r", none, none⟩, none⟩ : TMState).tokens.refresh_token) :=
  C2_refresh_preserves_refresh_token _ _ 100 ⟨"ok", some "newacc", none⟩
    rfl rfl rfl rfl rfl rfl

/-- C3, counterexample: with `GCS_BUCKET_NAME` unset, `_save_tokens` returns
early and does not write the local file at all (the claim says the save still
writes the record durably to the local file), even though the local path is
configured and writable. -/
theorem C3_counterexample :
    TokenManager.saveTokens
        ⟨some "1234", "", none, some "tokens.json", true, true,
         .error "unused", .error "unused"⟩ =
      ⟨false, false⟩ ∧
    (TokenManager.saveTokens
        ⟨some "1234", "", none, some "tokens.json", true, true,
         .error "unused", .error "unused"⟩).localWritten = false :=
  ⟨rfl, rfl⟩

/-- C3, amended: `_save_tokens` never raises, but when the GCS bucket name is
missing it skips both the local and the remote write (no local-only
degradation of the save); when the bucket and the local path are configured
and the local write succeeds, the local file is written regardless of whether
the subsequent GCS upload fails — a remote-write failure does not fail the
caller. -/
theorem C3_save_amended (env : TMEnv) :
    (strTruthy env.bucket = false → TokenManager.saveTokens env = ⟨false, false⟩) ∧
    (strTruthy env.bucket = true → strTruthy env.tokensFile = true →
      env.localWriteOk = true →
      (TokenManager.saveTokens env).localWritten = true) := by
  constructor
  · intro h
    rw [TokenManager.saveTokens]
    simp [h]
  · intro hb hf hl
    cases hgcs : env.gcsUploadOk <;>
      simp [TokenManager.saveTokens, hb, hf, hl, hgcs]

/-- Witness for C3's amended theorem: a missing bucket skips both writes; a
configured bucket with a failing upload still has the local write succeed. -/
theorem C3_save_amended_witness :
    TokenManager.saveTokens
        ⟨some "1234", "", none, some "tokens.json", true, true,
         .error "u", .error "u"⟩ = ⟨false, false⟩ ∧
    (TokenManager.saveTokens
        ⟨some "1234", "", some "bucket", some "tokens.json", true, false,
         .error "u", .error "u"⟩).localWritten = true :=
  ⟨(C3_save_amended _).1 rfl, (C3_save_amended _).2 rfl rfl rfl⟩

/-- C6, counterexample: `generate_token()` can be attempted although
`refresh_token()` did not raise. With an expired record and a provider
refresh response `{"s": "ok", "access_token": ""}`, `refresh_token()` returns
`""` without raising, yet `get_access_token()` falls through to
`generate_token()` (the `if token:` truthiness guard), so "generate is
attempted only if refresh raises" fails on this input. -/
theorem C6_counterexample :
    (TokenManager.refreshToken
        ⟨⟨some "tok", some "r", none, some (.time 50)⟩, none⟩
        ⟨some "1234", "authcode", some "bucket", some "tokens.json", true, true,
         .ok ⟨"ok", some "", none⟩, .ok ⟨"ok", some "gen", none⟩⟩ 100).result =
      .ok "" ∧
    (TokenManager.getAccessToken
        ⟨⟨some "tok", some "r", none, some (.time 50)⟩, none⟩
        ⟨some "1234", "authcode", some "bucket", some "tokens.json", true, true,
         .ok ⟨"ok", some "", none⟩, .ok ⟨"ok", some "gen", none⟩⟩ 100).generateCalls
      = 1 :=
  ⟨rfl, rfl⟩

/-- C6, amended: `get_access_token()` returns the stored token with no
refresh or generate attempt when it is not expired; when it is expired it
calls `refresh_token()` exactly once, returns its token when that token is
truthy (non-empty), and falls through to `generate_token()` exactly when
refresh raises or returns a falsy (empty) token — in which case the call
returns generate's token or propagates generate's error. -/
theorem C6_get_access_token_amended (st : TMState) (env : TMEnv) (now : ℕ) :
    (TokenManager.isTokenExpired st.tokens now = false →
      TokenManager.getAccessToken st env now =
        ⟨.ok (st.tokens.access_token.getD ""), st, 0, 0⟩) ∧
    (TokenManager.isTokenExpired st.tokens now = true →
      (TokenManager.getAccessToken st env now).refreshCalls = 1 ∧
      (∀ tok, (TokenManager.refreshToken st env now).result = .ok tok →
        tok.isEmpty = false →
        TokenManager.getAccessToken st env now =
          ⟨.ok tok, (TokenManager.refreshToken st env now).state, 1, 0⟩) ∧
      (∀ tok, (TokenManager.refreshToken st env now).result = .ok tok →
        tok.isEmpty = true →
        TokenManager.getAccessToken st env now =
          ⟨(TokenManager.generateToken
              (TokenManager.refreshToken st env now).state env now).result,
           (TokenManager.generateToken
              (TokenManager.refreshToken st env now).state env now).state,
           1, 1⟩) ∧
      (∀ m, (TokenManager.refreshToken st env now).result =
          .error (.refreshTokenError m) →
        TokenManager.getAccessToken st env now =
          ⟨(TokenManager.generateToken
              (TokenManager.refreshToken st env now).state env now).result,
           (TokenManager.generateToken
              (TokenManager.refreshToken st env now).state env now).state,
           1, 1⟩)) := by
  constructor
  · intro hexp
    simp [TokenManager.getAccessToken, hexp]
  · intro hexp
    refine ⟨?_, ?_, ?_, ?_⟩
    · rcases hr : (TokenManager.refreshToken st env now).result with e | tok
      · cases e <;> simp [TokenManager.getAccessToken, hexp, hr]
      · by_cases ht : tok.isEmpty <;>
          simp [TokenManager.getAccessToken, hexp, hr, ht]
    · intro tok hr ht
      simp [TokenManager.getAccessToken, hexp, hr, ht]
    · intro tok hr ht
      simp [TokenManager.getAccessToken, hexp, hr, ht]
    · intro m hr
      simp [TokenManager.getAccessToken, hexp, hr]

/-- Witness for C6's amended theorem: a non-expired record returns the stored
token with zero refresh and generate attempts. -/
theorem C6_get_access_token_amended_witness :
    TokenManager.getAccessToken ⟨⟨some "tok", none, none, none⟩, none⟩
        ⟨some "1234", "", none, some "tokens.json", true, true,
         .error "net", .error "sdk"⟩ 5 =
      ⟨.ok "tok", ⟨⟨some "tok", none, none, none⟩, none⟩, 0, 0⟩ :=
  (C6_get_access_token_amended _ _ 5).1 rfl

/-- C7, counterexample: a state whose record has no `refresh_token` and whose
`FYERS_AUTH_CODE` is blank, but whose stored access token is present with no
expiry metadata (treated as non-expired), makes `get_access_token()` return
the stored token — it does not raise `AuthCodeMissingError` as the claim
states for every such state. -/
theorem C7_counterexample :
    (TokenManager.getAccessToken ⟨⟨some "tok", none, none, none⟩, none⟩
        ⟨some "1234", "", some "bucket", some "tokens.json", true, true,
         .error "net down", .error "sdk"⟩ 100).result = .ok "tok" :=
  rfl

/-- C7, amended: when additionally the stored token is missing or expired, a
state with no `refresh_token` and a blank `FYERS_AUTH_CODE` makes
`get_access_token()` raise `AuthCodeMissingError`: the refresh path fails with
`RefreshTokenError` (missing refresh token), and the generate path then raises
`AuthCodeMissingError`, which propagates. -/
theorem C7_amended (st : TMState) (env : TMEnv) (now : ℕ)
    (hexp : TokenManager.isTokenExpired st.tokens now = true)
    (hrt : strTruthy st.tokens.refresh_token = false)
    (hac : (pyStrip env.authCode).isEmpty = true) :
    (TokenManager.getAccessToken st env now).result =
      .error (.authCodeMissing "FYERS_AUTH_CODE not set in environment") ∧
    (TokenManager.getAccessToken st env now).refreshCalls = 1 ∧
    (TokenManager.getAccessToken st env now).generateCalls = 1 := by
  have hr : (TokenManager.refreshToken st env now).result =
      .error (.refreshTokenError "Missing refresh_token or FYERS_PIN") := by
    rw [TokenManager.refreshToken]
    simp [hrt]
  refine ⟨?_, ?_, ?_⟩ <;>
    simp [TokenManager.getAccessToken, hexp, hr, TokenManager.generateToken, hac]

/-- Witness for C7's amended theorem at a concrete expired, refresh-less,
auth-code-less state. -/
theorem C7_amended_witness :
    (TokenManager.getAccessToken ⟨⟨none, none, none, none⟩, none⟩
        ⟨some "1234", "   ", some "bucket", some "tokens.json", true, true,
         .error "net down", .error "sdk"⟩ 100).result =
      .error (.authCodeMissing "FYERS_AUTH_CODE not set in environment") ∧
    (TokenManager.getAccessToken ⟨⟨none, none, none, none⟩, none⟩
        ⟨some "1234", "   ", some "bucket", some "tokens.json", true, true,
         .error "net down", .error "sdk"⟩ 100).refreshCalls = 1 ∧
    (TokenManager.getAccessToken ⟨⟨none, none, none, none⟩, none⟩
        ⟨some "1234", "   ", some "bucket", some "tokens.json", true, true,
         .error "net down", .error "sdk"⟩ 100).generateCalls = 1 :=
  C7_amended _ _ 100 rfl rfl (by decide)

/-- C10: when the stored token is present but expired and the refresh attempt
raises `RefreshTokenError`, `get_fyers_client()` swallows the error, makes no
generate attempt, and returns a client bound to the stale access token,
constructing one since no cached client exists. -/
theorem C10_get_fyers_client_swallows (st : TMState) (env : TMEnv) (now : ℕ)
    (t m : String)
    (hacc : st.tokens.access_token = some t) (ht : t.isEmpty = false)
    (hexp : TokenManager.isTokenExpired st.tokens now = true)
    (href : (TokenManager.refreshToken st env now).result =
      .error (.refreshTokenError m))
    (hcache : st.fyers = none) :
    TokenManager.getFyersClient st env now =
      ⟨.ok (some t), { st with fyers := some t }, 1, 0⟩ := by
  have hst := refreshToken_error_state st env now _ href
  rw [TokenManager.getFyersClient]
  simp [hexp, href, hst, hcache, TokenManager.initFyersClient, strTruthy,
    hacc, ht]

/-- Witness for C10: expired record with access token "tok", refresh failing
for lack of a PIN, no cached client — the client returned is bound to the
stale token "tok" and generate is never attempted. -/
theorem C10_get_fyers_client_swallows_witness :
    TokenManager.getFyersClient
        ⟨⟨some "tok", some "r", none, some (.time 50)⟩, none⟩
        ⟨none, "", some "bucket", some "tokens.json", true, true,
         .error "unused", .error "unused"⟩ 100 =
      ⟨.ok (some "tok"),
       { (⟨⟨some "tok", some "r", none, some (.time 50)⟩, none⟩ : TMState) with
          fyers := some "tok" }, 1, 0⟩ :=
  C10_get_fyers_client_swallows _ _ 100 "tok"
    "Missing refresh_token or FYERS_PIN" rfl rfl rfl rfl rfl

/-- C9: for every authenticated webhook request whose action is "BUY", if the
broker reports no open short position for the resolved symbol, the request
terminates with a 400 "No short position to cover" response and neither the
price lookup nor the order placement is called; for a non-"BUY" (e.g. "SELL")
action the short-position check is not even made and that response is never
produced. -/
theorem C9_buy_requires_short_cover (env : RoutesEnv) (d : WebhookReq)
    (a : String)
    (hfields : (strTruthy d.symbol && strTruthy d.action &&
      intTruthy d.strikeprice && strTruthy d.optionType &&
      strTruthy d.expiry && strTruthy d.token) = true)
    (hauth : d.token = env.secretToken)
    (hsym : strTruthy env.resolvedSymbol = true)
    (hfy : env.fyers1 = .ok true)
    (haction : d.action = some a) :
    (pyUpper a = "BUY" → env.hasShort = .ok false →
      webhook env (some d) = ⟨400, .noShortPosition, 1, 0, 0, 0, none, none⟩) ∧
    (pyUpper a ≠ "BUY" →
      (webhook env (some d)).shortChecks = 0 ∧
      (webhook env (some d)).body ≠ .noShortPosition) := by
  simp only [Bool.and_eq_true] at hfields
  obtain ⟨⟨⟨⟨⟨hsym0, hact0⟩, hstr0⟩, hopt0⟩, hexp0⟩, htok0⟩ := hfields
  rw [hauth] at htok0
  rw [haction] at hact0
  constructor
  · intro hbuy hshort
    simp [webhook, hsym0, hact0, hstr0, hopt0, hexp0, htok0, hauth, hsym,
      webhookPriceSection, hfy, haction, hbuy, hshort]
  · intro hnb
    rcases hl : env.ltp with e | op
    · rcases hf2 : env.fyers2 with e2 | u
      · simp [webhook, hsym0, hact0, hstr0, hopt0, hexp0, htok0, hauth, hsym,
          webhookPriceSection, hfy, haction, hnb, hl, hf2]
      · by_cases hs2 : env.placeOrder.s = some "ok" <;>
          simp [webhook, hsym0, hact0, hstr0, hopt0, hexp0, htok0, hauth,
            hsym, webhookPriceSection, hfy, haction, hnb, hl, hf2, hs2]
    · rcases op with _ | p <;> rcases hf2 : env.fyers2 with e2 | u
      · simp [webhook, hsym0, hact0, hstr0, hopt0, hexp0, htok0, hauth, hsym,
          webhookPriceSection, hfy, haction, hnb, hl, hf2]
      · by_cases hs2 : env.placeOrder.s = some "ok" <;>
          simp [webhook, hsym0, hact0, hstr0, hopt0, hexp0, htok0, hauth,
            hsym, webhookPriceSection, hfy, haction, hnb, hl, hf2, hs2]
      · simp [webhook, hsym0, hact0, hstr0, hopt0, hexp0, htok0, hauth, hsym,
          webhookPriceSection, hfy, haction, hnb, hl, hf2]
      · by_cases hs2 : env.placeOrder.s = some "ok" <;>
          simp [webhook, hsym0, hact0, hstr0, hopt0, hexp0, htok0, hauth,
            hsym, webhookPriceSection, hfy, haction, hnb, hl, hf2, hs2]

/-- Witness for C9: a BUY signal with no open short gets the 400 and zero
LTP/order calls; a SELL signal with the same broker state never has the
short-position check applied. -/
theorem C9_buy_requires_short_cover_witness :
    webhook ⟨some "secret", some "NSE:X", .ok true, .ok false, .ok (some 200),
        .ok (), ⟨some "ok", some "Order placed", some "order123"⟩, 75⟩
      (some ⟨some "secret", some "NIFTY", some 24500, some "CE", some "WEEKLY",
        some "BUY", some 1, none, none, none⟩) =
      ⟨400, .noShortPosition, 1, 0, 0, 0, none, none⟩ ∧
    (webhook ⟨some "secret", some "NSE:X", .ok true, .ok false, .ok (some 200),
        .ok (), ⟨some "ok", some "Order placed", some "order123"⟩, 75⟩
      (some ⟨some "secret", some "NIFTY", some 24500, some "CE", some "WEEKLY",
        some "SELL", some 1, none, none, none⟩)).shortChecks = 0 :=
  ⟨(C9_buy_requires_short_cover _ _ "BUY" (by decide) rfl (by decide) rfl
      rfl).1 rfl rfl,
   ((C9_buy_requires_short_cover _ _ "SELL" (by decide) rfl (by decide) rfl
      rfl).2 (by decide)).1⟩

/-- C5, counterexample: a webhook request whose price lookup returns no valid
price and whose caller supplied positive stop-loss 5 and take-profit 8 places
the order with the defaults 10.0 and 20.0, not with the caller's values — the
handler overwrites `sl`/`tp` with `None` before validation. The request is
indeed not failed (status 200). -/
theorem C5_counterexample :
    (webhook ⟨some "secret", some "NSE:X", .ok true, .ok true, .ok none, .ok (),
        ⟨some "ok", some "Order placed", some "order123"⟩, 75⟩
      (some ⟨some "secret", some "NIFTY", some 24500, some "CE", some "WEEKLY",
        some "SELL", some 1, some 5, some 8, none⟩)).status = 200 ∧
    (webhook ⟨some "secret", some "NSE:X", .ok true, .ok true, .ok none, .ok (),
        ⟨some "ok", some "Order placed", some "order123"⟩, 75⟩
      (some ⟨some "secret", some "NIFTY", some 24500, some "CE", some "WEEKLY",
        some "SELL", some 1, some 5, some 8, none⟩)).orderCalls = 1 ∧
    (webhook ⟨some "secret", some "NSE:X", .ok true, .ok true, .ok none, .ok (),
        ⟨some "ok", some "Order placed", some "order123"⟩, 75⟩
      (some ⟨some "secret", some "NIFTY", some 24500, some "CE", some "WEEKLY",
        some "SELL", some 1, some 5, some 8, none⟩)).slSent = some 10 ∧
    (webhook ⟨some "secret", some "NSE:X", .ok true, .ok true, .ok none, .ok (),
        ⟨some "ok", some "Order placed", some "order123"⟩, 75⟩
      (some ⟨some "secret", some "NIFTY", some 24500, some "CE", some "WEEKLY",
        some "SELL", some 1, some 5, some 8, none⟩)).tpSent = some 20 ∧
    (webhook ⟨some "secret", some "NSE:X", .ok true, .ok true, .ok none, .ok (),
        ⟨some "ok", some "Order placed", some "order123"⟩, 75⟩
      (some ⟨some "secret", some "NIFTY", some 24500, some "CE", some "WEEKLY",
        some "SELL", some 1, some 5, some 8, none⟩)).slSent ≠ some 5 ∧
    (webhook ⟨some "secret", some "NSE:X", .ok true, .ok true, .ok none, .ok (),
        ⟨some "ok", some "Order placed", some "order123"⟩, 75⟩
      (some ⟨some "secret", some "NIFTY", some 24500, some "CE", some "WEEKLY",
        some "SELL", some 1, some 5, some 8, none⟩)).tpSent ≠ some 8 := by
  refine ⟨rfl, rfl, rfl, rfl, ?_, ?_⟩ <;> decide

/-- C5, amended: a missing or invalid latest price is non-fatal — the order
is still submitted and the request succeeds — but the caller-supplied
stop-loss/take-profit are not used: the handler overwrites `sl` and `tp` with
`None` in the invalid-price branch, so `_validate_order_params` always applies
the defaults 10.0 and 20.0, whatever the caller supplied. -/
theorem C5_invalid_price_defaults (env : RoutesEnv) (d : WebhookReq)
    (a : String)
    (hfields : (strTruthy d.symbol && strTruthy d.action &&
      intTruthy d.strikeprice && strTruthy d.optionType &&
      strTruthy d.expiry && strTruthy d.token) = true)
    (hauth : d.token = env.secretToken)
    (hsym : strTruthy env.resolvedSymbol = true)
    (hfy : env.fyers1 = .ok true)
    (haction : d.action = some a)
    (hpath : pyUpper a ≠ "BUY" ∨
      (pyUpper a = "BUY" ∧ env.hasShort = .ok true))
    (hltp : env.ltp = .ok none)
    (hf2 : env.fyers2 = .ok ())
    (hok : env.placeOrder.s = some "ok") :
    (webhook env (some d)).status = 200 ∧
    (webhook env (some d)).orderCalls = 1 ∧
    (webhook env (some d)).slSent = some 10 ∧
    (webhook env (some d)).tpSent = some 20 := by
  simp only [Bool.and_eq_true] at hfields
  obtain ⟨⟨⟨⟨⟨hsym0, hact0⟩, hstr0⟩, hopt0⟩, hexp0⟩, htok0⟩ := hfields
  rw [hauth] at htok0
  rw [haction] at hact0
  rcases hpath with hnb | ⟨hbuy, hshort⟩ <;>
    refine ⟨?_, ?_, ?_, ?_⟩ <;>
      simp [webhook, hsym0, hact0, hstr0, hopt0, hexp0, htok0, hauth, hsym,
        webhookPriceSection, hfy, haction, hltp, hf2, hok,
        validateOrderParams, *]

/-- Witness for C5's amended theorem at the counterexample's input. -/
theorem C5_invalid_price_defaults_witness :
    (webhook ⟨some "secret", some "NSE:X", .ok true, .ok true, .ok none, .ok (),
        ⟨some "ok", some "Order placed", some "order123"⟩, 75⟩
      (some ⟨some "secret", some "NIFTY", some 24500, some "CE", some "WEEKLY",
        some "SELL", some 1, some 5, some 8, none⟩)).status = 200 ∧
    (webhook ⟨some "secret", some "NSE:X", .ok true, .ok true, .ok none, .ok (),
        ⟨some "ok", some "Order placed", some "order123"⟩, 75⟩
      (some ⟨some "secret", some "NIFTY", some 24500, some "CE", some "WEEKLY",
        some "SELL", some 1, some 5, some 8, none⟩)).orderCalls = 1 ∧
    (webhook ⟨some "secret", some "NSE:X", .ok true, .ok true, .ok none, .ok (),
        ⟨some "ok", some "Order placed", some "order123"⟩, 75⟩
      (some ⟨some "secret", some "NIFTY", some 24500, some "CE", some "WEEKLY",
        some "SELL", some 1, some 5, some 8, none⟩)).slSent = some 10 ∧
    (webhook ⟨some "secret", some "NSE:X", .ok true, .ok true, .ok none, .ok (),
        ⟨some "ok", some "Order placed", some "order123"⟩, 75⟩
      (some ⟨some "secret", some "NIFTY", some 24500, some "CE", some "WEEKLY",
        some "SELL", some 1, some 5, some 8, none⟩)).tpSent = some 20 :=
  C5_invalid_price_defaults _ _ "SELL" (by decide) rfl (by decide) rfl rfl
    (Or.inl (by decide)) rfl rfl rfl

/-- C1: the shipped `/webhook` handler performs no idempotency bookkeeping at
all — it neither consults nor writes the `IdempotencyStore` — so a second
request with the same idempotency key places the order again. At the concrete
input mirroring the repository's own replay test (a valid signal carrying
`idempotency_key` "test-key-123", store TTL 60s): each invocation makes one
order-placement call and zero store operations, so two identical requests
make two order-placement calls, not at most one; meanwhile the store itself,
had it been consulted as the test expects, would have replayed the stored
(response, status) pair within the TTL window. -/
theorem C1_webhook_ignores_idempotency :
    (webhook ⟨some "secret", some "NSE:X", .ok true, .ok true, .ok (some 200),
        .ok (), ⟨some "ok", some "Order placed", some "order123"⟩, 75⟩
      (some ⟨some "secret", some "NIFTY", some 24500, some "CE", some "WEEKLY",
        some "BUY", some 1, none, none, none⟩)).status = 200 ∧
    (webhook ⟨some "secret", some "NSE:X", .ok true, .ok true, .ok (some 200),
        .ok (), ⟨some "ok", some "Order placed", some "order123"⟩, 75⟩
      (some ⟨some "secret", some "NIFTY", some 24500, some "CE", some "WEEKLY",
        some "BUY", some 1, none, none, none⟩)).idemOps = 0 ∧
    (webhook ⟨some "secret", some "NSE:X", .ok true, .ok true, .ok (some 200),
        .ok (), ⟨some "ok", some "Order placed", some "order123"⟩, 75⟩
      (some ⟨some "secret", some "NIFTY", some 24500, some "CE", some "WEEKLY",
        some "BUY", some 1, none, none, none⟩)).orderCalls +
    (webhook ⟨some "secret", some "NSE:X", .ok true, .ok true, .ok (some 200),
        .ok (), ⟨some "ok", some "Order placed", some "order123"⟩, 75⟩
      (some ⟨some "secret", some "NIFTY", some 24500, some "CE", some "WEEKLY",
        some "BUY", some 1, none, none, none⟩)).orderCalls = 2 ∧
    ((({ ttl := 60, data := [] } : IdemStore WebhookBody).set 1000
        "test-key-123"
        (webhook ⟨some "secret", some "NSE:X", .ok true, .ok true,
            .ok (some 200), .ok (),
            ⟨some "ok", some "Order placed", some "order123"⟩, 75⟩
          (some ⟨some "secret", some "NIFTY", some 24500, some "CE",
            some "WEEKLY", some "BUY", some 1, none, none, none⟩)).body
        200).get 1030 "test-key-123").1 =
      some ((webhook ⟨some "secret", some "NSE:X", .ok true, .ok true,
          .ok (some 200), .ok (),
          ⟨some "ok", some "Order placed", some "order123"⟩, 75⟩
        (some ⟨some "secret", some "NIFTY", some 24500, some "CE",
          some "WEEKLY", some "BUY", some 1, none, none, none⟩)).body, 200) :=
  ⟨rfl, rfl, rfl, rfl⟩

end TradingBot
